import Mathlib

/-
Verification of the IBB integration-test harness (mellium/xmpp, Python
side): the aioxmpp and slixmpp bindings of the SendIBB/RecvIBB scenario
roles and the generic Daemon lifecycle that hosts them.

The embedding models each role's `run` coroutine as a pure function from
the environment's observable behaviour (the chunks delivered by the
stream-data callback and the value carried by the close/completion
signal) to the ordered list of externally visible actions the coroutine
performs.  Bytes are naturals below 256; Python's strict UTF-8 codec is
embedded directly.
-/

namespace Spec2Proof

abbrev Byte := Nat

/-- UTF-8 encoding of one code point (Python `str.encode` on a single
character): 1 to 4 bytes depending on the code point's magnitude. -/
def utf8EncodeChar (c : Nat) : List Byte :=
  if c < 0x80 then [c]
  else if c < 0x800 then [0xC0 + c / 0x40, 0x80 + c % 0x40]
  else if c < 0x10000 then
    [0xE0 + c / 0x1000, 0x80 + (c / 0x40) % 0x40, 0x80 + c % 0x40]
  else
    [0xF0 + c / 0x40000, 0x80 + (c / 0x1000) % 0x40,
     0x80 + (c / 0x40) % 0x40, 0x80 + c % 0x40]

/-- Python `s.encode('utf-8')`: concatenation of the encodings of the
string's code points. -/
def utf8Encode (s : String) : List Byte :=
  (s.data.map (fun c => c.toNat)).foldr (fun c acc => utf8EncodeChar c ++ acc) []

/-- A UTF-8 continuation byte (0x80..0xBF). -/
def isCont (b : Byte) : Bool := 0x80 ≤ b && b ≤ 0xBF

/-- Allowed first continuation byte after a 3-byte lead, per RFC 3629
(excludes overlong forms after 0xE0 and surrogates after 0xED). -/
def cont2Ok (b b1 : Byte) : Bool :=
  if b = 0xE0 then 0xA0 ≤ b1 && b1 ≤ 0xBF
  else if b = 0xED then 0x80 ≤ b1 && b1 ≤ 0x9F
  else isCont b1

/-- Allowed first continuation byte after a 4-byte lead, per RFC 3629
(excludes overlong forms after 0xF0 and values above U+10FFFF after 0xF4). -/
def cont3Ok (b b1 : Byte) : Bool :=
  if b = 0xF0 then 0x90 ≤ b1 && b1 ≤ 0xBF
  else if b = 0xF4 then 0x80 ≤ b1 && b1 ≤ 0x8F
  else isCont b1

/-- Python `bytes.decode('utf-8')` with the default strict error handler:
returns the decoded code points, or `none` when the bytes are not valid
UTF-8 (the Python call raises `UnicodeDecodeError` there). -/
def utf8Decode? : List Byte → Option (List Nat)
  | [] => some []
  | b :: r =>
    if b < 0x80 then
      match utf8Decode? r with
      | some cs => some (b :: cs)
      | none => none
    else if 0xC2 ≤ b && b ≤ 0xDF then
      match r with
      | b1 :: r1 =>
        if isCont b1 then
          match utf8Decode? r1 with
          | some cs => some (((b - 0xC0) * 0x40 + (b1 - 0x80)) :: cs)
          | none => none
        else none
      | [] => none
    else if 0xE0 ≤ b && b ≤ 0xEF then
      match r with
      | b1 :: b2 :: r2 =>
        if cont2Ok b b1 && isCont b2 then
          match utf8Decode? r2 with
          | some cs =>
            some (((b - 0xE0) * 0x1000 + (b1 - 0x80) * 0x40 + (b2 - 0x80)) :: cs)
          | none => none
        else none
      | _ => none
    else if 0xF0 ≤ b && b ≤ 0xF4 then
      match r with
      | b1 :: b2 :: b3 :: r3 =>
        if cont3Ok b b1 && isCont b2 && isCont b3 then
          match utf8Decode? r3 with
          | some cs =>
            some (((b - 0xF0) * 0x40000 + (b1 - 0x80) * 0x1000 +
                   (b2 - 0x80) * 0x40 + (b3 - 0x80)) :: cs)
          | none => none
        else none
      | _ => none
    else none

/-- One firing of the stream-data callback: `self.data += data` in
aioxmpp's `TestProtocol.data_received`, `self.data.extend(...)` in the
slixmpp handlers.  The chunk is appended at the end of the accumulator. -/
def accStep (acc d : List Byte) : List Byte := acc ++ d

/-- The accumulator after the callback has fired once per delivered chunk,
in arrival order, starting from the empty buffer. -/
def accumulate (chunks : List (List Byte)) : List Byte :=
  chunks.foldl accStep []

/-- A Python bytes literal whose characters are all ASCII: the byte values
are the characters' code points. -/
def asciiBytes (s : String) : List Byte := s.data.map (fun c => c.toNat)

/-- String literal written by the aioxmpp `SendIBB.run`. -/
def aioSendText : String :=
  "Warren snores through the night like a bear—a bass to the treble of the loons."

/-- String literal written by the slixmpp `SendIBB.run`. -/
def sliSendText : String :=
  "Warren snores through the night like a bear—a bass to the treble of the loons."

/-- Bytes literal written by the aioxmpp `RecvIBB.run`
(`b"I feel a deep security in the single-mindedness of freight trains."`). -/
def aioRecvBytes : List Byte :=
  asciiBytes "I feel a deep security in the single-mindedness of freight trains."

/-- Bytes literal written by the slixmpp `RecvIBB.run`. -/
def sliRecvBytes : List Byte :=
  asciiBytes "I feel a deep security in the single-mindedness of freight trains."

example : accumulate [[1, 2], [3]] = [1, 2, 3] := by decide
example : utf8Decode? [0xFF] = none := by decide
example : utf8Decode? [104, 105] = some [104, 105] := by decide
example : utf8Decode? (utf8Encode "a—b") = some [97, 0x2014, 98] := by decide

/-- Externally visible steps performed by a role's `run` coroutine, in
program order.  Message bodies are decoded code-point lists (`Option` for
the aioxmpp start message, which sets no body at all). -/
inductive Action where
  | openSession (peer : String)
  | expectSession (peer : String) (sid : Option String)
  | awaitStreamStart
  | write (data : List Byte)
  | closeStream
  | awaitClose
  | readAccum (contents : List Byte)
  | sendStart (dest : String) (body : Option (List Nat))
  | sendDone (dest : String) (body : List Nat)
  | printErr (diag : String)
  | exitProc (code : Nat)
  | raiseStreamError (cause : String)
  | raiseDecodeError
  deriving DecidableEq, Repr

/-- The environment's observable behaviour on one stream: the data chunks
the library's callback delivers before the close/end signal, and the error
(if any) that the close/completion signal reports. -/
structure StreamEnv where
  chunks : List (List Byte)
  closeErr : Option String
  deriving DecidableEq, Repr

/-- Shared tail of every role: read the accumulated received bytes,
strict-decode them, and send the Done-tagged message carrying the decoded
text — or raise `UnicodeDecodeError` when the bytes are not valid UTF-8,
in which case no Done message is sent. -/
def finishActions (peer : String) (bs : List Byte) : List Action :=
  .readAccum bs ::
  (match utf8Decode? bs with
   | some body => [.sendDone peer body]
   | none => [.raiseDecodeError])

/-- aioxmpp `SendIBB.run` (src/ibb/aioxmpp_integration_test.py, lines
73-93): open a session to `-j`, write the fixed payload, close the
transport, await `closed_fut`; on an error result print a diagnostic to
stderr and `sys.exit(1)`, otherwise decode `protocol.data` and send the
`doneibb` message. -/
def aioSendRun (peer : String) (env : StreamEnv) : List Action :=
  .openSession peer ::
  .write (utf8Encode aioSendText) ::
  .closeStream ::
  .awaitClose ::
  (match env.closeErr with
   | some e => [.printErr ("error awaiting connection close: " ++ e), .exitProc 1]
   | none => finishActions peer (accumulate env.chunks))

/-- aioxmpp `RecvIBB.run` (lines 116-142): send the `startibb` message
(no body) to `-j`, register `expect_session` for `(-j, -sid)`, write the
fixed bytes once the stream is up, await `closed_fut`; then the same
error / decode-and-Done tail as the sender. -/
def aioRecvRun (peer : String) (sid : Option String) (env : StreamEnv) : List Action :=
  .sendStart peer none ::
  .expectSession peer sid ::
  .write aioRecvBytes ::
  .awaitClose ::
  (match env.closeErr with
   | some e => [.printErr ("error awaiting connection close: " ++ e), .exitProc 1]
   | none => finishActions peer (accumulate env.chunks))

/-- slixmpp `SendIBB.run` (src/ibb/slixmpp_integration_test.py, lines
29-49): open a stream to `-j`, `sendall` the fixed payload, `await
conn.close()` (which both closes and awaits the close acknowledgement).
An error reported there surfaces as an exception out of the coroutine:
there is no check, no stderr diagnostic and no `sys.exit` call.  On a
clean close, decode `self.data` and send the `doneibb` message. -/
def sliSendRun (peer : String) (env : StreamEnv) : List Action :=
  .openSession peer ::
  .write (utf8Encode sliSendText) ::
  .closeStream ::
  .awaitClose ::
  (match env.closeErr with
   | some e => [.raiseStreamError e]
   | none => finishActions peer (accumulate env.chunks))

/-- slixmpp `RecvIBB.run` (lines 88-113): build the `startibb` message
whose body is `self.data.decode('utf-8')` — a read of the accumulator
before stream-end, while it is still empty under the single-threaded
cooperative model (`run` starts at `session_start` and does not suspend
before `msg.send()`) — then await the `ibb_stream_start` future, `sendall`
the fixed bytes, await the `ibb_stream_end` future (which carries no error
channel), and finally decode `self.data` and send the `doneibb` message.
`args.sid` is parsed but never consulted. -/
def sliRecvRun (peer : String) (sid : Option String) (env : StreamEnv) : List Action :=
  .readAccum [] ::
  .sendStart peer (utf8Decode? []) ::
  .awaitStreamStart ::
  .write sliRecvBytes ::
  .awaitClose ::
  finishActions peer (accumulate env.chunks)

/-- An incoming IBB stream offer as seen by a receiver: the offering
peer's JID and the offered session id. -/
structure Offer where
  peer : String
  sid : String
  deriving DecidableEq, Repr

/-- External collaborator (aioxmpp `IBBService.expect_session`), per the
spec's interface contract for the accept/expect primitive: an offer is
accepted only when its peer JID equals the expected one and, when an
expected session id is supplied, its session id is exact-string equal to
it. -/
def expect_session_accepts (peer : String) (sid : Option String) (o : Offer) : Bool :=
  o.peer == peer &&
    (match sid with
     | some s => o.sid == s
     | none => true)

/-- slixmpp receiver offer handling, from `RecvIBB.configure` (lines
72-86): the xep_0047 plugin is registered with `auto_accept` set and the
registered handlers never consult `args.sid` or the offering JID, so every
incoming offer is accepted. -/
def sli_recv_accepts (sid : Option String) (o : Offer) : Bool := true

/-- Receiver-side rendezvous states (spec section 4.2). -/
inductive RecvState where
  | awaitingStreamOffer
  | awaitingData
  | awaitingStreamEnd
  | done
  deriving DecidableEq, Repr

/-- Effect of one incoming stream offer on the aioxmpp receiver's state:
an accepted offer moves `AwaitingStreamOffer` to `AwaitingData`, a
rejected one leaves the state unchanged. -/
def aioOfferStep (peer : String) (sid : Option String) (s : RecvState) (o : Offer) : RecvState :=
  match s with
  | .awaitingStreamOffer =>
    if expect_session_accepts peer sid o then .awaitingData else .awaitingStreamOffer
  | t => t

/-- Effect of one incoming stream offer on the slixmpp receiver's state. -/
def sliOfferStep (sid : Option String) (s : RecvState) (o : Offer) : RecvState :=
  match s with
  | .awaitingStreamOffer =>
    if sli_recv_accepts sid o then .awaitingData else .awaitingStreamOffer
  | t => t

/-- Lifecycle steps of a `Daemon.run_test` execution. -/
inductive LifeAction where
  | connect
  | runScenario
  | release
  | reraise
  | awaitSessionEnd
  deriving DecidableEq, Repr

/-- How the scenario body ends inside the scoped runner. -/
inductive Outcome where
  | normal
  | raised
  | cancelled
  deriving DecidableEq, Repr

/-- aioxmpp `Daemon.run_test`
(src/internal/integration/aioxmpp/aioxmpp_client.py, lines 51-53):
`async with self.client.connected(): await self.run()`.  Python's
async-with runs the context manager's exit on every path — normal return,
exception, and cancellation (`CancelledError` is an exception reaching the
exit) — and exiting `connected()` releases the connection. -/
def aioRunTest (o : Outcome) : List LifeAction :=
  .connect :: .runScenario ::
  (match o with
   | .normal => [.release]
   | .raised => [.release, .reraise]
   | .cancelled => [.release, .reraise])

/-- slixmpp `Daemon.run_test`
(src/internal/integration/slixmpp/slixmpp_client.py, lines 31-42):
registers `run` as the `session_start` handler, connects, and awaits the
`session_end` event.  No path performs a logout/disconnect of its own;
an exception from the handler is swallowed by the event loop and the
runner keeps awaiting `session_end`. -/
def sliRunTest (o : Outcome) : List LifeAction :=
  [.connect, .runScenario, .awaitSessionEnd]

/-- No action satisfying `q` occurs strictly before the first action
satisfying `p` (vacuously true when neither occurs). -/
def noneBefore (q p : Action → Bool) : List Action → Bool
  | [] => true
  | a :: r => if q a then false else if p a then true else noneBefore q p r

/-- The part of the trace strictly after the first action satisfying `p`. -/
def afterFirst (p : Action → Bool) : List Action → List Action
  | [] => []
  | a :: r => if p a then r else afterFirst p r

def isWrite : Action → Bool
  | .write _ => true
  | _ => false

def isClose : Action → Bool
  | .closeStream => true
  | _ => false

def isAwaitClose : Action → Bool
  | .awaitClose => true
  | _ => false

def isAccept : Action → Bool
  | .expectSession _ _ => true
  | .awaitStreamStart => true
  | _ => false

def isSendStart : Action → Bool
  | .sendStart _ _ => true
  | _ => false

def isSendDone : Action → Bool
  | .sendDone _ _ => true
  | _ => false

def isReadAccum : Action → Bool
  | .readAccum _ => true
  | _ => false

def isPrintErr : Action → Bool
  | .printErr _ => true
  | _ => false

def isExitNonzero : Action → Bool
  | .exitProc c => c != 0
  | _ => false

def isRelease : LifeAction → Bool
  | .release => true
  | _ => false

/-- Folding the data callback from any starting buffer appends the
concatenation of the delivered chunks. -/
theorem foldl_accStep_eq (cs : List (List Byte)) (acc : List Byte) :
    cs.foldl accStep acc = acc ++ cs.flatten := by
  induction cs generalizing acc with
  | nil => simp
  | cons c cs ih => simp [accStep, ih]

/-- A Done-tagged message inside the shared finishing tail carries
exactly the successful strict decode of the bytes that tail read. -/
theorem sendDone_mem_finish {peer p : String} {b : List Nat} {bs : List Byte}
    (h : Action.sendDone p b ∈ finishActions peer bs) : utf8Decode? bs = some b := by
  rcases hd : utf8Decode? bs with _ | body <;> simp [finishActions, hd] at h
  rw [h.2]

/-- Claim C10: for every sequence of incoming stream-data events, the
receive accumulator after processing them equals the concatenation, in
arrival order, of all delivered chunks, and each data event appends its
chunk at the end of the accumulator. -/
theorem C10_accumulator_is_concat (cs : List (List Byte)) (d : List Byte) :
    accumulate cs = cs.flatten ∧
    accumulate (cs ++ [d]) = accStep (accumulate cs) d := by
  constructor
  · simpa using foldl_accStep_eq cs []
  · simp [accumulate, List.foldl_append]

/-- Claim C1: in every role run of either binding, a Done-tagged message,
when sent, carries as its body exactly the strict UTF-8 decoding of the
bytes that role accumulated from its incoming stream (the fold of the
callback-delivered chunks), never the bytes the role itself wrote. -/
theorem C1_done_echoes_received (peer : String) (sid : Option String)
    (env : StreamEnv) (b : List Nat)
    (h : Action.sendDone peer b ∈ aioSendRun peer env ∨
         Action.sendDone peer b ∈ aioRecvRun peer sid env ∨
         Action.sendDone peer b ∈ sliSendRun peer env ∨
         Action.sendDone peer b ∈ sliRecvRun peer sid env) :
    utf8Decode? (accumulate env.chunks) = some b := by
  rcases h with h | h | h | h
  · rcases henv : env.closeErr with _ | e
    · simp [aioSendRun, henv] at h
      exact sendDone_mem_finish h
    · simp [aioSendRun, henv] at h
  · rcases henv : env.closeErr with _ | e
    · simp [aioRecvRun, henv] at h
      exact sendDone_mem_finish h
    · simp [aioRecvRun, henv] at h
  · rcases henv : env.closeErr with _ | e
    · simp [sliSendRun, henv] at h
      exact sendDone_mem_finish h
    · simp [sliSendRun, henv] at h
  · simp [sliRecvRun] at h
    exact sendDone_mem_finish h

/-- Witness for C1: the aioxmpp sender with incoming chunks delivering
bytes 104, 105 sends a Done message, and the accumulated bytes decode to
exactly that body. -/
theorem C1_witness :
    utf8Decode? (accumulate (StreamEnv.mk [[104, 105]] none).chunks) = some [104, 105] :=
  C1_done_echoes_received "go@example.net" none (StreamEnv.mk [[104, 105]] none)
    [104, 105] (Or.inl (by decide))

/-- Claim C2: the claim says every receiver configured with an expected
session id ignores an offer with a different id (or from an unexpected
JID) and stays in `AwaitingStreamOffer`.  The slixmpp receiver violates
this at the failing input below: configured to expect session id
"abc123", it accepts an incoming offer carrying "zzz999" and leaves
`AwaitingStreamOffer`, because `configure` registers the plugin with
auto_accept and never consults the parsed `-sid` value — contradicting
that argument's own declared purpose.  The aioxmpp receiver, whose
`expect_session` follows the accept/expect contract, does ignore the same
offer. -/
theorem C2_sli_accepts_mismatched_sid :
    sliOfferStep (some "abc123") RecvState.awaitingStreamOffer
      (Offer.mk "go@example.net" "zzz999") = RecvState.awaitingData ∧
    sli_recv_accepts (some "abc123") (Offer.mk "go@example.net" "zzz999") = true ∧
    expect_session_accepts "test@example.net" (some "abc123")
      (Offer.mk "test@example.net" "zzz999") = false ∧
    aioOfferStep "test@example.net" (some "abc123") RecvState.awaitingStreamOffer
      (Offer.mk "test@example.net" "zzz999") = RecvState.awaitingStreamOffer := by
  decide

/-- Claim C3 counterexample: in the slixmpp binding the sender's close
signal reporting an error is not handled at all — the run raises the
error out of the coroutine and performs no stderr diagnostic and no
non-zero exit, so the claim's "in both bindings" fails. -/
theorem C3_sli_close_error_not_fatal :
    sliSendRun "go@example.net" (StreamEnv.mk [] (some "remote error")) =
      [Action.openSession "go@example.net", Action.write (utf8Encode sliSendText),
       Action.closeStream, Action.awaitClose, Action.raiseStreamError "remote error"] ∧
    (sliSendRun "go@example.net" (StreamEnv.mk [] (some "remote error"))).filter
      (fun a => isPrintErr a || isExitNonzero a) = [] :=
  ⟨rfl, rfl⟩

/-- Claim C3 (amended): in the aioxmpp binding, both the sender and the
receiver treat an error on the close signal as fatal — the run becomes
exactly the prefix followed by printing a diagnostic carrying the error
cause to stderr and exiting with status 1; the slixmpp binding performs
no such check (its sender raises the error instead). -/
theorem C3_aio_close_error_fatal (peer : String) (sid : Option String)
    (env : StreamEnv) (e : String) (h : env.closeErr = some e) :
    aioSendRun peer env =
      [Action.openSession peer, Action.write (utf8Encode aioSendText),
       Action.closeStream, Action.awaitClose,
       Action.printErr ("error awaiting connection close: " ++ e), Action.exitProc 1] ∧
    aioRecvRun peer sid env =
      [Action.sendStart peer none, Action.expectSession peer sid,
       Action.write aioRecvBytes, Action.awaitClose,
       Action.printErr ("error awaiting connection close: " ++ e), Action.exitProc 1] ∧
    (sliSendRun peer env).filter (fun a => isPrintErr a || isExitNonzero a) = [] := by
  refine ⟨?_, ?_, ?_⟩ <;>
    simp [aioSendRun, aioRecvRun, sliSendRun, h, isPrintErr, isExitNonzero]

/-- Witness for C3's amended theorem at a concrete error. -/
theorem C3_amended_witness :
    aioSendRun "go@example.net" (StreamEnv.mk [] (some "boom")) =
      [Action.openSession "go@example.net", Action.write (utf8Encode aioSendText),
       Action.closeStream, Action.awaitClose,
       Action.printErr ("error awaiting connection close: " ++ "boom"), Action.exitProc 1] ∧
    aioRecvRun "go@example.net" none (StreamEnv.mk [] (some "boom")) =
      [Action.sendStart "go@example.net" none, Action.expectSession "go@example.net" none,
       Action.write aioRecvBytes, Action.awaitClose,
       Action.printErr ("error awaiting connection close: " ++ "boom"), Action.exitProc 1] ∧
    (sliSendRun "go@example.net" (StreamEnv.mk [] (some "boom"))).filter
      (fun a => isPrintErr a || isExitNonzero a) = [] :=
  C3_aio_close_error_fatal "go@example.net" none (StreamEnv.mk [] (some "boom")) "boom" rfl

/-- Claim C4 counterexample: the slixmpp scoped runner performs no
release of the connection on the normal-completion path (it only awaits
the session_end event), so "released exactly once on every exit path"
fails for that binding. -/
theorem C4_sli_runner_never_releases :
    (sliRunTest Outcome.normal).filter isRelease = [] := rfl

/-- Claim C4 (amended): the aioxmpp scoped runner releases the connection
exactly once whatever the scenario body's outcome (normal, raised, or
cancelled), via the async-with exit of `connected()`; the slixmpp runner
never performs a release of its own on any outcome. -/
theorem C4_release_exactly_once_aio_only (o : Outcome) :
    ((aioRunTest o).filter isRelease).length = 1 ∧
    ((sliRunTest o).filter isRelease).length = 0 := by
  cases o <;> exact ⟨rfl, rfl⟩

/-- Order obligations of the sender role: no close before the first
write, no close-await before the close, no Done message before the
close-await, and no write after the close. -/
def senderOrderOk (tr : List Action) : Prop :=
  noneBefore isClose isWrite tr = true ∧
  noneBefore isAwaitClose isClose tr = true ∧
  noneBefore isSendDone isAwaitClose tr = true ∧
  (afterFirst isClose tr).filter isWrite = []

/-- Claim C5: in every sender-role run of either binding the stream
operations happen in the order write, close, await-close; no write occurs
after the close and the Done message is only sent after the close signal
resolves. -/
theorem C5_sender_operation_order (peer : String) (env : StreamEnv) :
    senderOrderOk (aioSendRun peer env) ∧ senderOrderOk (sliSendRun peer env) := by
  rcases henv : env.closeErr with _ | e <;>
    rcases hd : utf8Decode? (accumulate env.chunks) with _ | body <;>
    constructor <;>
    simp [senderOrderOk, aioSendRun, sliSendRun, finishActions, henv, hd,
      noneBefore, afterFirst, isClose, isWrite, isAwaitClose, isSendDone]

/-- Claim C6: in every receiver-role run of either binding, no
stream-accept step occurs before the Start-tagged message is sent: the
receiver publishes its readiness first.  (Under the single-threaded
cooperative model, the slixmpp `run` does not suspend between
`session_start` and sending the start message, so no offer can be
processed earlier.) -/
theorem C6_start_published_before_accept (peer : String) (sid : Option String)
    (env : StreamEnv) :
    noneBefore isAccept isSendStart (aioRecvRun peer sid env) = true ∧
    noneBefore isAccept isSendStart (sliRecvRun peer sid env) = true := by
  constructor <;>
    simp [aioRecvRun, sliRecvRun, noneBefore, isAccept, isSendStart, isReadAccum]

/-- Claim C7: each sender run writes exactly one chunk, the UTF-8
encoding of the Warren sentence, and each receiver run writes exactly one
chunk, the UTF-8 encoding of the freight-trains sentence, identically in
both bindings (the receivers' Python bytes literals are exactly that
encoding). -/
theorem C7_fixed_payloads :
    (∀ peer env, (aioSendRun peer env).filter isWrite =
        [Action.write (utf8Encode aioSendText)] ∧
      (sliSendRun peer env).filter isWrite =
        [Action.write (utf8Encode sliSendText)]) ∧
    (∀ peer sid env, (aioRecvRun peer sid env).filter isWrite =
        [Action.write aioRecvBytes] ∧
      (sliRecvRun peer sid env).filter isWrite = [Action.write sliRecvBytes]) ∧
    utf8Encode aioSendText = utf8Encode
      "Warren snores through the night like a bear—a bass to the treble of the loons." ∧
    utf8Encode sliSendText = utf8Encode aioSendText ∧
    aioRecvBytes = utf8Encode
      "I feel a deep security in the single-mindedness of freight trains." ∧
    sliRecvBytes = aioRecvBytes := by
  refine ⟨?_, ?_, rfl, rfl, by decide, rfl⟩
  · intro peer env
    rcases henv : env.closeErr with _ | e <;>
      rcases hd : utf8Decode? (accumulate env.chunks) with _ | body <;>
      constructor <;>
      simp [aioSendRun, sliSendRun, finishActions, henv, hd, isWrite]
  · intro peer sid env
    rcases henv : env.closeErr with _ | e <;>
      rcases hd : utf8Decode? (accumulate env.chunks) with _ | body <;>
      constructor <;>
      simp [aioRecvRun, sliRecvRun, finishActions, henv, hd, isWrite]

/-- Claim C8 counterexample: the slixmpp receiver reads its byte
accumulator before the stream-end await — the start message's body is
`self.data.decode('utf-8')` — so "read only after stream-end" fails. -/
theorem C8_sli_reads_before_stream_end :
    noneBefore isReadAccum isAwaitClose
      (sliRecvRun "go@example.net" (some "abc123") (StreamEnv.mk [] none)) = false := rfl

/-- Claim C8 (amended): the accumulator is populated only by the
stream-data callback (it is the in-order fold of the delivered chunks);
the aioxmpp receiver reads it only after the stream-end await, and every
read there returns the accumulated bytes; the slixmpp receiver performs
exactly one additional read before stream-end — of the still-empty
accumulator, to build the Start message body — and its post-end reads
also return the accumulated bytes. -/
theorem C8_read_placement (peer : String) (sid : Option String) (env : StreamEnv) :
    noneBefore isReadAccum isAwaitClose (aioRecvRun peer sid env) = true ∧
    ((sliRecvRun peer sid env).takeWhile (fun a => !isAwaitClose a)).filter isReadAccum =
      [Action.readAccum []] ∧
    ((aioRecvRun peer sid env).filter isReadAccum).all
      (fun a => a == Action.readAccum (accumulate env.chunks)) = true ∧
    ((afterFirst isAwaitClose (sliRecvRun peer sid env)).filter isReadAccum).all
      (fun a => a == Action.readAccum (accumulate env.chunks)) = true := by
  rcases henv : env.closeErr with _ | e <;>
    rcases hd : utf8Decode? (accumulate env.chunks) with _ | body <;>
    refine ⟨?_, ?_, ?_, ?_⟩ <;>
    simp [aioRecvRun, sliRecvRun, finishActions, henv, hd, noneBefore, afterFirst,
      isReadAccum, isAwaitClose, isSendStart, isAccept, List.takeWhile_cons]

/-- Claim C9: the Done construction strict-decodes the accumulated bytes;
when they are not valid UTF-8 the decode raises before any Done message
is sent, in every role of both bindings. -/
theorem C9_no_done_without_valid_utf8 (peer : String) (sid : Option String)
    (env : StreamEnv) (h : utf8Decode? (accumulate env.chunks) = none) :
    (aioSendRun peer env).filter isSendDone = [] ∧
    (aioRecvRun peer sid env).filter isSendDone = [] ∧
    (sliSendRun peer env).filter isSendDone = [] ∧
    (sliRecvRun peer sid env).filter isSendDone = [] := by
  rcases henv : env.closeErr with _ | e <;>
    refine ⟨?_, ?_, ?_, ?_⟩ <;>
    simp [aioSendRun, aioRecvRun, sliSendRun, sliRecvRun, finishActions, henv, h,
      isSendDone]

/-- Witness for C9: a single delivered chunk consisting of the lone byte
255 is not valid UTF-8, and no role sends a Done message for it. -/
theorem C9_witness :
    (aioSendRun "go@example.net" (StreamEnv.mk [[255]] none)).filter isSendDone = [] ∧
    (aioRecvRun "go@example.net" none (StreamEnv.mk [[255]] none)).filter isSendDone = [] ∧
    (sliSendRun "go@example.net" (StreamEnv.mk [[255]] none)).filter isSendDone = [] ∧
    (sliRecvRun "go@example.net" none (StreamEnv.mk [[255]] none)).filter isSendDone = [] :=
  C9_no_done_without_valid_utf8 "go@example.net" none (StreamEnv.mk [[255]] none) (by decide)

end Spec2Proof
